import Mathlib

/-!
Verification of the mcci_tweetnacl cryptographic primitive layer:
the SHA-512 hash engine, the Ed25519 signature engine, the
constant-time comparison, and the entropy-source abstraction.

Byte sequences are modelled as `List Nat` with every element below 256;
64-bit machine words are `Nat` reduced modulo `2 ^ 64` at each step.
-/

/-- `2 ^ 64`, the modulus of 64-bit machine arithmetic. -/
def M64 : Nat := 18446744073709551616

/-- Right rotation of a 64-bit word. -/
def rotr64 (x n : Nat) : Nat := (x >>> n) ||| ((x <<< (64 - n)) % M64)

/-- Big-endian encoding of `n` into `k` bytes. -/
def natToBytesBE : Nat → Nat → List Nat
  | 0, _ => []
  | k+1, n => natToBytesBE k (n / 256) ++ [n % 256]

/-- Little-endian encoding of `n` into `k` bytes. -/
def natToBytesLE : Nat → Nat → List Nat
  | 0, _ => []
  | k+1, n => n % 256 :: natToBytesLE k (n / 256)

/-- Little-endian interpretation of a byte sequence as an integer. -/
def bytesToNatLE (bs : List Nat) : Nat :=
  bs.foldr (fun b acc => b + 256 * acc) 0

/-- SHA-512 round constants (fractional parts of cube roots of the first 80 primes). -/
def sha512K : List Nat := [
  4794697086780616226, 8158064640168781261, 13096744586834688815,
  16840607885511220156, 4131703408338449720, 6480981068601479193,
  10538285296894168987, 12329834152419229976, 15566598209576043074,
  1334009975649890238, 2608012711638119052, 6128411473006802146,
  8268148722764581231, 9286055187155687089, 11230858885718282805,
  13951009754708518548, 16472876342353939154, 17275323862435702243,
  1135362057144423861, 2597628984639134821, 3308224258029322869,
  5365058923640841347, 6679025012923562964, 8573033837759648693,
  10970295158949994411, 12119686244451234320, 12683024718118986047,
  13788192230050041572, 14330467153632333762, 15395433587784984357,
  489312712824947311, 1452737877330783856, 2861767655752347644,
  3322285676063803686, 5560940570517711597, 5996557281743188959,
  7280758554555802590, 8532644243296465576, 9350256976987008742,
  10552545826968843579, 11727347734174303076, 12113106623233404929,
  14000437183269869457, 14369950271660146224, 15101387698204529176,
  15463397548674623760, 17586052441742319658, 1182934255886127544,
  1847814050463011016, 2177327727835720531, 2830643537854262169,
  3796741975233480872, 4115178125766777443, 5681478168544905931,
  6601373596472566643, 7507060721942968483, 8399075790359081724,
  8693463985226723168, 9568029438360202098, 10144078919501101548,
  10430055236837252648, 11840083180663258601, 13761210420658862357,
  14299343276471374635, 14566680578165727644, 15097957966210449927,
  16922976911328602910, 17689382322260857208, 500013540394364858,
  748580250866718886, 1242879168328830382, 1977374033974150939,
  2944078676154940804, 3659926193048069267, 4368137639120453308,
  4836135668995329356, 5532061633213252278, 6448918945643986474,
  6902733635092675308, 7801388544844847127]

/-- SHA-512 initial hash state (fractional parts of square roots of the first 8 primes). -/
def sha512H0 : List Nat := [
  7640891576956012808, 13503953896175478587, 4354685564936845355,
  11912009170470909681, 5840696475078001361, 11170449401992604703,
  2270897969802886507, 6620516959819538809]

/-- SHA-512 big sigma-0. -/
def bSig0 (x : Nat) : Nat := rotr64 x 28 ^^^ rotr64 x 34 ^^^ rotr64 x 39

/-- SHA-512 big sigma-1. -/
def bSig1 (x : Nat) : Nat := rotr64 x 14 ^^^ rotr64 x 18 ^^^ rotr64 x 41

/-- SHA-512 small sigma-0. -/
def sSig0 (x : Nat) : Nat := rotr64 x 1 ^^^ rotr64 x 8 ^^^ (x >>> 7)

/-- SHA-512 small sigma-1. -/
def sSig1 (x : Nat) : Nat := rotr64 x 19 ^^^ rotr64 x 61 ^^^ (x >>> 6)

/-- SHA-512 choice function. -/
def ch64 (e f g : Nat) : Nat := (e &&& f) ^^^ ((e ^^^ 0xffffffffffffffff) &&& g)

/-- SHA-512 majority function. -/
def maj64 (a b c : Nat) : Nat := (a &&& b) ^^^ (a &&& c) ^^^ (b &&& c)

/-- SHA-512 padding: append `0x80`, zeros, then the 16-byte big-endian bit length. -/
def sha512pad (m : List Nat) : List Nat :=
  m ++ [128] ++ List.replicate ((240 - ((m.length + 1) % 128)) % 128) 0 ++
    natToBytesBE 16 (8 * m.length)

/-- Group a byte sequence into big-endian 64-bit words (length must be a multiple of 8). -/
def toWordsBE : List Nat → List Nat
  | a :: b :: c :: d :: e :: f :: g :: h :: rest =>
      (((((((a * 256 + b) * 256 + c) * 256 + d) * 256 + e) * 256 + f) * 256 + g) * 256 + h)
        :: toWordsBE rest
  | _ => []

/-- Group a word sequence into 16-word blocks (length must be a multiple of 16). -/
def toBlocks16 : List Nat → List (List Nat)
  | w0 :: w1 :: w2 :: w3 :: w4 :: w5 :: w6 :: w7 ::
    w8 :: w9 :: w10 :: w11 :: w12 :: w13 :: w14 :: w15 :: rest =>
      [w0, w1, w2, w3, w4, w5, w6, w7, w8, w9, w10, w11, w12, w13, w14, w15]
        :: toBlocks16 rest
  | _ => []

/-- Next message-schedule word from a window of the previous 16 words. -/
def schedNext (w : List Nat) : Nat :=
  match w with
  | [w0, w1, _, _, _, _, _, _, _, w9, _, _, _, _, w14, _] =>
      (sSig1 w14 + w9 + sSig0 w1 + w0) % M64
  | _ => 0

/-- Extend the message schedule by `fuel` further words. -/
def schedExt : Nat → List Nat → List Nat
  | 0, _ => []
  | fuel+1, w =>
      let nw := schedNext w
      nw :: schedExt fuel (w.tail ++ [nw])

/-- The full 80-word SHA-512 message schedule of one block. -/
def sha512Schedule (block : List Nat) : List Nat := block ++ schedExt 64 block

/-- One SHA-512 compression round on the 8-word working state. -/
def sha512Round (st : List Nat) (kw w : Nat) : List Nat :=
  match st with
  | [a, b, c, d, e, f, g, h] =>
      let t1 := (h + bSig1 e + ch64 e f g + kw + w) % M64
      let t2 := (bSig0 a + maj64 a b c) % M64
      [(t1 + t2) % M64, a, b, c, (d + t1) % M64, e, f, g]
  | other => other

/-- Run the compression rounds over paired constants and schedule words. -/
def sha512Rounds : List Nat → List Nat → List Nat → List Nat
  | st, k :: ks, w :: ws => sha512Rounds (sha512Round st k w) ks ws
  | st, _, _ => st

/-- Process one 16-word block into the hash state. -/
def sha512Block (H block : List Nat) : List Nat :=
  let st := sha512Rounds H sha512K (sha512Schedule block)
  (H.zip st).map (fun pr => (pr.1 + pr.2) % M64)

/-- Serialize the 8-word hash state into 64 big-endian bytes. -/
def wordsToBytesBE (ws : List Nat) : List Nat :=
  ws.foldr (fun w acc => natToBytesBE 8 w ++ acc) []

/-- Modelled from the spec: the Hash Engine `mcci_tweetnacl_hash_sha512`
(implementation not under `src/`), the standard SHA-512 producing a
64-byte digest from an arbitrary-length byte sequence. -/
def mcci_tweetnacl_hash_sha512 (m : List Nat) : List Nat :=
  wordsToBytesBE ((toBlocks16 (toWordsBE (sha512pad m))).foldl sha512Block sha512H0)

/-- The 11 bytes of the test input, without terminating NUL. -/
def duckInput : List Nat := [
  0x49, 0x20, 0x61, 0x6d, 0x20, 0x61, 0x20, 0x64, 0x75, 0x63, 0x6b]

/-- The published 64-byte digest of `duckInput`. -/
def duckDigest : List Nat := [
  0xb3, 0xb5, 0xc6, 0xb4, 0xb3, 0x5c, 0x40, 0x93, 0xf6, 0x5f, 0xc6, 0x39,
  0xa4, 0x06, 0x39, 0x35, 0x47, 0xca, 0x60, 0x04, 0x62, 0xe2, 0x5b, 0x83,
  0x69, 0xd5, 0xbd, 0x76, 0x54, 0xf5, 0xd9, 0xe7, 0x6c, 0xf8, 0xc1, 0x08,
  0xa0, 0xcb, 0xb7, 0x69, 0x63, 0x41, 0x7f, 0xe6, 0xa5, 0x3f, 0x6b, 0x68,
  0x1a, 0x3b, 0xda, 0xdc, 0x65, 0x8d, 0x3e, 0x80, 0x46, 0x97, 0x68, 0xef,
  0x02, 0x6c, 0x59, 0x00]

/-- The published 64-byte digest of 4096 zero bytes. -/
def zeros4096Digest : List Nat := [
  0x2d, 0x23, 0x91, 0x3d, 0x37, 0x59, 0xef, 0x01, 0x70, 0x4a, 0x86, 0xb4,
  0xbe, 0xe3, 0xac, 0x8a, 0x29, 0x00, 0x23, 0x13, 0xec, 0xc9, 0x8a, 0x74,
  0x24, 0x42, 0x5a, 0x78, 0x17, 0x0f, 0x21, 0x95, 0x77, 0x82, 0x2f, 0xd7,
  0x7e, 0x4a, 0xe9, 0x63, 0x13, 0x54, 0x76, 0x96, 0xad, 0x7d, 0x59, 0x49,
  0xb5, 0x8e, 0x12, 0xd5, 0x06, 0x3e, 0xf2, 0xee, 0x06, 0x3b, 0x59, 0x57,
  0x40, 0xa3, 0xa1, 0x2d]


/-- The prime `2 ^ 255 - 19` of the Ed25519 base field. -/
def p25519 : Nat := 2 ^ 255 - 19

/-- The group order `L` of the Ed25519 base point. -/
def L25519 : Nat := 2 ^ 252 + 27742317777372353535851937790883648493

/-- Subtraction in the base field. -/
def fsub (a b : Nat) : Nat := (a + (p25519 - b % p25519)) % p25519

/-- The low-to-high binary digits of `n`, `fuel` of them. -/
def natBits : Nat → Nat → List Nat
  | 0, _ => []
  | fuel+1, n => (n % 2) :: natBits fuel (n / 2)

/-- Binary modular exponentiation, `fuel` squarings deep. -/
def powModAux : Nat → Nat → Nat → Nat → Nat → Nat
  | 0, _, _, _, acc => acc
  | fuel+1, b, e, m, acc =>
      powModAux fuel (b * b % m) (e / 2) m (if e % 2 = 1 then acc * b % m else acc)

/-- `b ^ e % m` for exponents below `2 ^ 256`. -/
def powMod (b e m : Nat) : Nat := powModAux 256 (b % m) e m (1 % m)

/-- The Edwards curve constant `d = -121665 / 121666` in the base field. -/
def d25519 : Nat :=
  (p25519 - 121665) * powMod 121666 (p25519 - 2) p25519 % p25519

/-- A curve point in extended twisted Edwards coordinates
(`x = X/Z`, `y = Y/Z`, `T = XY/Z`). -/
structure ExtP where
  x : Nat
  y : Nat
  z : Nat
  t : Nat

/-- Unified point addition on the twisted Edwards curve. -/
def pAdd (P Q : ExtP) : ExtP :=
  let a := fsub P.y P.x * fsub Q.y Q.x % p25519
  let b := (P.y + P.x) * (Q.y + Q.x) % p25519
  let c := P.t * (2 * d25519 % p25519) % p25519 * Q.t % p25519
  let dd := 2 * P.z * Q.z % p25519
  let e := fsub b a
  let f := fsub dd c
  let g := (dd + c) % p25519
  let h := (b + a) % p25519
  ⟨e * f % p25519, g * h % p25519, f * g % p25519, e * h % p25519⟩

/-- The neutral element of the curve group. -/
def neutralP : ExtP := ⟨0, 1, 1, 0⟩

/-- Double-and-add scalar multiplication over the given low-to-high scalar bits. -/
def scmBits : List Nat → ExtP → ExtP → ExtP
  | [], _, acc => acc
  | bit :: rest, base, acc =>
      scmBits rest (pAdd base base) (if bit = 1 then pAdd acc base else acc)

/-- Scalar multiplication `s × P` on the curve. -/
def scalarmult (P : ExtP) (s : Nat) : ExtP := scmBits (natBits 256 s) P neutralP

/-- The `y`-coordinate `4 / 5` of the Ed25519 base point. -/
def By25519 : Nat := 4 * powMod 5 (p25519 - 2) p25519 % p25519

/-- The `x`-coordinate of the Ed25519 base point (the even root paired with `By25519`). -/
def Bx25519 : Nat :=
  15112221349535400772501151409588531511454012693041857206046113283949847762202

/-- The Ed25519 base point in extended coordinates. -/
def basePoint : ExtP := ⟨Bx25519, By25519, 1, Bx25519 * By25519 % p25519⟩

/-- Compress a curve point: 32 little-endian bytes of `y`,
with the parity of `x` in the top bit of the last byte. -/
def pack (P : ExtP) : List Nat :=
  natToBytesLE 32
    (P.y * powMod P.z (p25519 - 2) p25519 % p25519 +
      P.x * powMod P.z (p25519 - 2) p25519 % p25519 % 2 * 2 ^ 255)

/-- Clamping of a hashed seed into a scalar: clear the low 3 bits,
clear the top bit, set bit 254. -/
def clampScalar (a : Nat) : Nat := 2 ^ 254 + a % 2 ^ 254 / 8 * 8

/-- Modelled from the spec: the signature proper of the Signature Engine
(implementation not under `src/`).  Per spec §4.4: hash the seed half of the
secret key, clamp one half into the scalar `a` and use the other as the nonce
seed; `r = hash(nonceseed ‖ m) mod L`; `R = r × basepoint` compressed;
`k = hash(R ‖ publickey ‖ m) mod L`; `S = (r + k·a) mod L`;
the signature is `R ‖ S` (64 bytes). -/
def ed25519Signature (m sk : List Nat) : List Nat :=
  let h := mcci_tweetnacl_hash_sha512 (sk.take 32)
  let a := clampScalar (bytesToNatLE (h.take 32))
  let r := bytesToNatLE (mcci_tweetnacl_hash_sha512 (h.drop 32 ++ m)) % L25519
  let bigR := pack (scalarmult basePoint r)
  let k := bytesToNatLE
    (mcci_tweetnacl_hash_sha512 (bigR ++ (sk.drop 32).take 32 ++ m)) % L25519
  bigR ++ natToBytesLE 32 ((r + k * a) % L25519)

/-- Modelled from the spec: the Sign call `mcci_tweetnacl_sign`
(implementation not under `src/`).  The output buffer is the 64-byte
signature `R ‖ S` followed by a verbatim copy of the message — the
signed-message format that the unit test's published vectors `s1`–`s10`
pin down — and the reported output length is `64 +` the message length. -/
def mcci_tweetnacl_sign (m sk : List Nat) : List Nat × Nat :=
  (ed25519Signature m sk ++ m, 64 + m.length)
/-- Message of published Ed25519 test vector 1 (unit-test.ino m1). -/
def msg1 : List Nat := [
]

/-- Secret key of published Ed25519 test vector 1 (unit-test.ino v1.Secret). -/
def sec1 : List Nat := [
  0x9d, 0x61, 0xb1, 0x9d, 0xef, 0xfd, 0x5a, 0x60, 0xba, 0x84, 0x4a, 0xf4,
  0x92, 0xec, 0x2c, 0xc4, 0x44, 0x49, 0xc5, 0x69, 0x7b, 0x32, 0x69, 0x19,
  0x70, 0x3b, 0xac, 0x03, 0x1c, 0xae, 0x7f, 0x60, 0xd7, 0x5a, 0x98, 0x01,
  0x82, 0xb1, 0x0a, 0xb7, 0xd5, 0x4b, 0xfe, 0xd3, 0xc9, 0x64, 0x07, 0x3a,
  0x0e, 0xe1, 0x72, 0xf3, 0xda, 0xa6, 0x23, 0x25, 0xaf, 0x02, 0x1a, 0x68,
  0xf7, 0x07, 0x51, 0x1a]

/-- Expected signed output of vector 1 (unit-test.ino s1): signature then message. -/
def sig1 : List Nat := [
  0xe5, 0x56, 0x43, 0x00, 0xc3, 0x60, 0xac, 0x72, 0x90, 0x86, 0xe2, 0xcc,
  0x80, 0x6e, 0x82, 0x8a, 0x84, 0x87, 0x7f, 0x1e, 0xb8, 0xe5, 0xd9, 0x74,
  0xd8, 0x73, 0xe0, 0x65, 0x22, 0x49, 0x01, 0x55, 0x5f, 0xb8, 0x82, 0x15,
  0x90, 0xa3, 0x3b, 0xac, 0xc6, 0x1e, 0x39, 0x70, 0x1c, 0xf9, 0xb4, 0x6b,
  0xd2, 0x5b, 0xf5, 0xf0, 0x59, 0x5b, 0xbe, 0x24, 0x65, 0x51, 0x41, 0x43,
  0x8e, 0x7a, 0x10, 0x0b]

/-- Message of published Ed25519 test vector 2 (unit-test.ino m2). -/
def msg2 : List Nat := [
  0x72]

/-- Secret key of published Ed25519 test vector 2 (unit-test.ino v2.Secret). -/
def sec2 : List Nat := [
  0x4c, 0xcd, 0x08, 0x9b, 0x28, 0xff, 0x96, 0xda, 0x9d, 0xb6, 0xc3, 0x46,
  0xec, 0x11, 0x4e, 0x0f, 0x5b, 0x8a, 0x31, 0x9f, 0x35, 0xab, 0xa6, 0x24,
  0xda, 0x8c, 0xf6, 0xed, 0x4f, 0xb8, 0xa6, 0xfb, 0x3d, 0x40, 0x17, 0xc3,
  0xe8, 0x43, 0x89, 0x5a, 0x92, 0xb7, 0x0a, 0xa7, 0x4d, 0x1b, 0x7e, 0xbc,
  0x9c, 0x98, 0x2c, 0xcf, 0x2e, 0xc4, 0x96, 0x8c, 0xc0, 0xcd, 0x55, 0xf1,
  0x2a, 0xf4, 0x66, 0x0c]

/-- Expected signed output of vector 2 (unit-test.ino s2): signature then message. -/
def sig2 : List Nat := [
  0x92, 0xa0, 0x09, 0xa9, 0xf0, 0xd4, 0xca, 0xb8, 0x72, 0x0e, 0x82, 0x0b,
  0x5f, 0x64, 0x25, 0x40, 0xa2, 0xb2, 0x7b, 0x54, 0x16, 0x50, 0x3f, 0x8f,
  0xb3, 0x76, 0x22, 0x23, 0xeb, 0xdb, 0x69, 0xda, 0x08, 0x5a, 0xc1, 0xe4,
  0x3e, 0x15, 0x99, 0x6e, 0x45, 0x8f, 0x36, 0x13, 0xd0, 0xf1, 0x1d, 0x8c,
  0x38, 0x7b, 0x2e, 0xae, 0xb4, 0x30, 0x2a, 0xee, 0xb0, 0x0d, 0x29, 0x16,
  0x12, 0xbb, 0x0c, 0x00, 0x72]

/-- Message of published Ed25519 test vector 3 (unit-test.ino m3). -/
def msg3 : List Nat := [
  0xaf, 0x82]

/-- Secret key of published Ed25519 test vector 3 (unit-test.ino v3.Secret). -/
def sec3 : List Nat := [
  0xc5, 0xaa, 0x8d, 0xf4, 0x3f, 0x9f, 0x83, 0x7b, 0xed, 0xb7, 0x44, 0x2f,
  0x31, 0xdc, 0xb7, 0xb1, 0x66, 0xd3, 0x85, 0x35, 0x07, 0x6f, 0x09, 0x4b,
  0x85, 0xce, 0x3a, 0x2e, 0x0b, 0x44, 0x58, 0xf7, 0xfc, 0x51, 0xcd, 0x8e,
  0x62, 0x18, 0xa1, 0xa3, 0x8d, 0xa4, 0x7e, 0xd0, 0x02, 0x30, 0xf0, 0x58,
  0x08, 0x16, 0xed, 0x13, 0xba, 0x33, 0x03, 0xac, 0x5d, 0xeb, 0x91, 0x15,
  0x48, 0x90, 0x80, 0x25]

/-- Expected signed output of vector 3 (unit-test.ino s3): signature then message. -/
def sig3 : List Nat := [
  0x62, 0x91, 0xd6, 0x57, 0xde, 0xec, 0x24, 0x02, 0x48, 0x27, 0xe6, 0x9c,
  0x3a, 0xbe, 0x01, 0xa3, 0x0c, 0xe5, 0x48, 0xa2, 0x84, 0x74, 0x3a, 0x44,
  0x5e, 0x36, 0x80, 0xd7, 0xdb, 0x5a, 0xc3, 0xac, 0x18, 0xff, 0x9b, 0x53,
  0x8d, 0x16, 0xf2, 0x90, 0xae, 0x67, 0xf7, 0x60, 0x98, 0x4d, 0xc6, 0x59,
  0x4a, 0x7c, 0x15, 0xe9, 0x71, 0x6e, 0xd2, 0x8d, 0xc0, 0x27, 0xbe, 0xce,
  0xea, 0x1e, 0xc4, 0x0a, 0xaf, 0x82]

/-- Message of published Ed25519 test vector 4 (unit-test.ino m4). -/
def msg4 : List Nat := [
  0xcb, 0xc7, 0x7b]

/-- Secret key of published Ed25519 test vector 4 (unit-test.ino v4.Secret). -/
def sec4 : List Nat := [
  0x0d, 0x4a, 0x05, 0xb0, 0x73, 0x52, 0xa5, 0x43, 0x6e, 0x18, 0x03, 0x56,
  0xda, 0x0a, 0xe6, 0xef, 0xa0, 0x34, 0x5f, 0xf7, 0xfb, 0x15, 0x72, 0x57,
  0x57, 0x72, 0xe8, 0x00, 0x5e, 0xd9, 0x78, 0xe9, 0xe6, 0x1a, 0x18, 0x5b,
  0xce, 0xf2, 0x61, 0x3a, 0x6c, 0x7c, 0xb7, 0x97, 0x63, 0xce, 0x94, 0x5d,
  0x3b, 0x24, 0x5d, 0x76, 0x11, 0x4d, 0xd4, 0x40, 0xbc, 0xf5, 0xf2, 0xdc,
  0x1a, 0xa5, 0x70, 0x57]

/-- Expected signed output of vector 4 (unit-test.ino s4): signature then message. -/
def sig4 : List Nat := [
  0xd9, 0x86, 0x8d, 0x52, 0xc2, 0xbe, 0xbc, 0xe5, 0xf3, 0xfa, 0x5a, 0x79,
  0x89, 0x19, 0x70, 0xf3, 0x09, 0xcb, 0x65, 0x91, 0xe3, 0xe1, 0x70, 0x2a,
  0x70, 0x27, 0x6f, 0xa9, 0x7c, 0x24, 0xb3, 0xa8, 0xe5, 0x86, 0x06, 0xc3,
  0x8c, 0x97, 0x58, 0x52, 0x9d, 0xa5, 0x0e, 0xe3, 0x1b, 0x82, 0x19, 0xcb,
  0xa4, 0x52, 0x71, 0xc6, 0x89, 0xaf, 0xa6, 0x0b, 0x0e, 0xa2, 0x6c, 0x99,
  0xdb, 0x19, 0xb0, 0x0c, 0xcb, 0xc7, 0x7b]

/-- Message of published Ed25519 test vector 5 (unit-test.ino m5). -/
def msg5 : List Nat := [
  0x5f, 0x4c, 0x89, 0x89]

/-- Secret key of published Ed25519 test vector 5 (unit-test.ino v5.Secret). -/
def sec5 : List Nat := [
  0x6d, 0xf9, 0x34, 0x0c, 0x13, 0x8c, 0xc1, 0x88, 0xb5, 0xfe, 0x44, 0x64,
  0xeb, 0xaa, 0x3f, 0x7f, 0xc2, 0x06, 0xa2, 0xd5, 0x5c, 0x34, 0x34, 0x70,
  0x7e, 0x74, 0xc9, 0xfc, 0x04, 0xe2, 0x0e, 0xbb, 0xc0, 0xda, 0xc1, 0x02,
  0xc4, 0x53, 0x31, 0x86, 0xe2, 0x5d, 0xc4, 0x31, 0x28, 0x47, 0x23, 0x53,
  0xea, 0xab, 0xdb, 0x87, 0x8b, 0x15, 0x2a, 0xeb, 0x8e, 0x00, 0x1f, 0x92,
  0xd9, 0x02, 0x33, 0xa7]

/-- Expected signed output of vector 5 (unit-test.ino s5): signature then message. -/
def sig5 : List Nat := [
  0x12, 0x4f, 0x6f, 0xc6, 0xb0, 0xd1, 0x00, 0x84, 0x27, 0x69, 0xe7, 0x1b,
  0xd5, 0x30, 0x66, 0x4d, 0x88, 0x8d, 0xf8, 0x50, 0x7d, 0xf6, 0xc5, 0x6d,
  0xed, 0xfd, 0xb5, 0x09, 0xae, 0xb9, 0x34, 0x16, 0xe2, 0x6b, 0x91, 0x8d,
  0x38, 0xaa, 0x06, 0x30, 0x5d, 0xf3, 0x09, 0x56, 0x97, 0xc1, 0x8b, 0x2a,
  0xa8, 0x32, 0xea, 0xa5, 0x2e, 0xdc, 0x0a, 0xe4, 0x9f, 0xba, 0xe5, 0xa8,
  0x5e, 0x15, 0x0c, 0x07, 0x5f, 0x4c, 0x89, 0x89]

/-- Message of published Ed25519 test vector 6 (unit-test.ino m6). -/
def msg6 : List Nat := [
  0x18, 0xb6, 0xbe, 0xc0, 0x97]

/-- Secret key of published Ed25519 test vector 6 (unit-test.ino v6.Secret). -/
def sec6 : List Nat := [
  0xb7, 0x80, 0x38, 0x1a, 0x65, 0xed, 0xf8, 0xb7, 0x8f, 0x69, 0x45, 0xe8,
  0xdb, 0xec, 0x79, 0x41, 0xac, 0x04, 0x9f, 0xd4, 0xc6, 0x10, 0x40, 0xcf,
  0x0c, 0x32, 0x43, 0x57, 0x97, 0x5a, 0x29, 0x3c, 0xe2, 0x53, 0xaf, 0x07,
  0x66, 0x80, 0x4b, 0x86, 0x9b, 0xb1, 0x59, 0x5b, 0xe9, 0x76, 0x5b, 0x53,
  0x48, 0x86, 0xbb, 0xaa, 0xb8, 0x30, 0x5b, 0xf5, 0x0d, 0xbc, 0x7f, 0x89,
  0x9b, 0xfb, 0x5f, 0x01]

/-- Expected signed output of vector 6 (unit-test.ino s6): signature then message. -/
def sig6 : List Nat := [
  0xb2, 0xfc, 0x46, 0xad, 0x47, 0xaf, 0x46, 0x44, 0x78, 0xc1, 0x99, 0xe1,
  0xf8, 0xbe, 0x16, 0x9f, 0x1b, 0xe6, 0x32, 0x7c, 0x7f, 0x9a, 0x0a, 0x66,
  0x89, 0x37, 0x1c, 0xa9, 0x4c, 0xaf, 0x04, 0x06, 0x4a, 0x01, 0xb2, 0x2a,
  0xff, 0x15, 0x20, 0xab, 0xd5, 0x89, 0x51, 0x34, 0x16, 0x03, 0xfa, 0xed,
  0x76, 0x8c, 0xf7, 0x8c, 0xe9, 0x7a, 0xe7, 0xb0, 0x38, 0xab, 0xfe, 0x45,
  0x6a, 0xa1, 0x7c, 0x09, 0x18, 0xb6, 0xbe, 0xc0, 0x97]

/-- Message of published Ed25519 test vector 7 (unit-test.ino m7). -/
def msg7 : List Nat := [
  0x89, 0x01, 0x0d, 0x85, 0x59, 0x72]

/-- Secret key of published Ed25519 test vector 7 (unit-test.ino v7.Secret). -/
def sec7 : List Nat := [
  0x78, 0xae, 0x9e, 0xff, 0xe6, 0xf2, 0x45, 0xe9, 0x24, 0xa7, 0xbe, 0x63,
  0x04, 0x11, 0x46, 0xeb, 0xc6, 0x70, 0xdb, 0xd3, 0x06, 0x0c, 0xba, 0x67,
  0xfb, 0xc6, 0x21, 0x6f, 0xeb, 0xc4, 0x45, 0x46, 0xfb, 0xcf, 0xbf, 0xa4,
  0x05, 0x05, 0xd7, 0xf2, 0xbe, 0x44, 0x4a, 0x33, 0xd1, 0x85, 0xcc, 0x54,
  0xe1, 0x6d, 0x61, 0x52, 0x60, 0xe1, 0x64, 0x0b, 0x2b, 0x50, 0x87, 0xb8,
  0x3e, 0xe3, 0x64, 0x3d]

/-- Expected signed output of vector 7 (unit-test.ino s7): signature then message. -/
def sig7 : List Nat := [
  0x6e, 0xd6, 0x29, 0xfc, 0x1d, 0x9c, 0xe9, 0xe1, 0x46, 0x87, 0x55, 0xff,
  0x63, 0x6d, 0x5a, 0x3f, 0x40, 0xa5, 0xd9, 0xc9, 0x1a, 0xfd, 0x93, 0xb7,
  0x9d, 0x24, 0x18, 0x30, 0xf7, 0xe5, 0xfa, 0x29, 0x85, 0x4b, 0x8f, 0x20,
  0xcc, 0x6e, 0xec, 0xbb, 0x24, 0x8d, 0xbd, 0x8d, 0x16, 0xd1, 0x4e, 0x99,
  0x75, 0x21, 0x94, 0xe4, 0x90, 0x4d, 0x09, 0xc7, 0x4d, 0x63, 0x95, 0x18,
  0x83, 0x9d, 0x23, 0x00, 0x89, 0x01, 0x0d, 0x85, 0x59, 0x72]

/-- Message of published Ed25519 test vector 8 (unit-test.ino m8). -/
def msg8 : List Nat := [
  0xb4, 0xa8, 0xf3, 0x81, 0xe7, 0x0e, 0x7a]

/-- Secret key of published Ed25519 test vector 8 (unit-test.ino v8.Secret). -/
def sec8 : List Nat := [
  0x69, 0x18, 0x65, 0xbf, 0xc8, 0x2a, 0x1e, 0x4b, 0x57, 0x4e, 0xec, 0xde,
  0x4c, 0x75, 0x19, 0x09, 0x3f, 0xaf, 0x0c, 0xf8, 0x67, 0x38, 0x02, 0x34,
  0xe3, 0x66, 0x46, 0x45, 0xc6, 0x1c, 0x5f, 0x79, 0x98, 0xa5, 0xe3, 0xa3,
  0x6e, 0x67, 0xaa, 0xba, 0x89, 0x88, 0x8b, 0xf0, 0x93, 0xde, 0x1a, 0xd9,
  0x63, 0xe7, 0x74, 0x01, 0x3b, 0x39, 0x02, 0xbf, 0xab, 0x35, 0x6d, 0x8b,
  0x90, 0x17, 0x8a, 0x63]

/-- Expected signed output of vector 8 (unit-test.ino s8): signature then message. -/
def sig8 : List Nat := [
  0x6e, 0x0a, 0xf2, 0xfe, 0x55, 0xae, 0x37, 0x7a, 0x6b, 0x7a, 0x72, 0x78,
  0xed, 0xfb, 0x41, 0x9b, 0xd3, 0x21, 0xe0, 0x6d, 0x0d, 0xf5, 0xe2, 0x70,
  0x37, 0xdb, 0x88, 0x12, 0xe7, 0xe3, 0x52, 0x98, 0x10, 0xfa, 0x55, 0x52,
  0xf6, 0xc0, 0x02, 0x09, 0x85, 0xca, 0x17, 0xa0, 0xe0, 0x2e, 0x03, 0x6d,
  0x7b, 0x22, 0x2a, 0x24, 0xf9, 0x9b, 0x77, 0xb7, 0x5f, 0xdd, 0x16, 0xcb,
  0x05, 0x56, 0x81, 0x07, 0xb4, 0xa8, 0xf3, 0x81, 0xe7, 0x0e, 0x7a]

/-- Message of published Ed25519 test vector 9 (unit-test.ino m9). -/
def msg9 : List Nat := [
  0x42, 0x84, 0xab, 0xc5, 0x1b, 0xb6, 0x72, 0x35]

/-- Secret key of published Ed25519 test vector 9 (unit-test.ino v9.Secret). -/
def sec9 : List Nat := [
  0x3b, 0x26, 0x51, 0x6f, 0xb3, 0xdc, 0x88, 0xeb, 0x18, 0x1b, 0x9e, 0xd7,
  0x3f, 0x0b, 0xcd, 0x52, 0xbc, 0xd6, 0xb4, 0xc7, 0x88, 0xe4, 0xbc, 0xaf,
  0x46, 0x05, 0x7f, 0xd0, 0x78, 0xbe, 0xe0, 0x73, 0xf8, 0x1f, 0xb5, 0x4a,
  0x82, 0x5f, 0xce, 0xd9, 0x5e, 0xb0, 0x33, 0xaf, 0xcd, 0x64, 0x31, 0x40,
  0x75, 0xab, 0xfb, 0x0a, 0xbd, 0x20, 0xa9, 0x70, 0x89, 0x25, 0x03, 0x43,
  0x6f, 0x34, 0xb8, 0x63]

/-- Expected signed output of vector 9 (unit-test.ino s9): signature then message. -/
def sig9 : List Nat := [
  0xd6, 0xad, 0xde, 0xc5, 0xaf, 0xb0, 0x52, 0x8a, 0xc1, 0x7b, 0xb1, 0x78,
  0xd3, 0xe7, 0xf2, 0x88, 0x7f, 0x9a, 0xdb, 0xb1, 0xad, 0x16, 0xe1, 0x10,
  0x54, 0x5e, 0xf3, 0xbc, 0x57, 0xf9, 0xde, 0x23, 0x14, 0xa5, 0xc8, 0x38,
  0x8f, 0x72, 0x3b, 0x89, 0x07, 0xbe, 0x0f, 0x3a, 0xc9, 0x0c, 0x62, 0x59,
  0xbb, 0xe8, 0x85, 0xec, 0xc1, 0x76, 0x45, 0xdf, 0x3d, 0xb7, 0xd4, 0x88,
  0xf8, 0x05, 0xfa, 0x08, 0x42, 0x84, 0xab, 0xc5, 0x1b, 0xb6, 0x72, 0x35]

/-- Message of published Ed25519 test vector 10 (unit-test.ino m10). -/
def msg10 : List Nat := [
  0x4b, 0xaf, 0xda, 0xc9, 0x09, 0x9d, 0x40, 0x57, 0xed, 0x6d, 0xd0, 0x8b,
  0xca, 0xee, 0x87, 0x56, 0xe9, 0xa4, 0x0f, 0x2c, 0xb9, 0x59, 0x80, 0x20,
  0xeb, 0x95, 0x01, 0x95, 0x28, 0x40, 0x9b, 0xbe, 0xa3, 0x8b, 0x38, 0x4a,
  0x59, 0xf1, 0x19, 0xf5, 0x72, 0x97, 0xbf, 0xb2, 0xfa, 0x14, 0x2f, 0xc7,
  0xbb, 0x1d, 0x90, 0xdb, 0xdd, 0xde, 0x77, 0x2b, 0xcd, 0xe4, 0x8c, 0x56,
  0x70, 0xd5, 0xfa, 0x13]

/-- Secret key of published Ed25519 test vector 10 (unit-test.ino v10.Secret). -/
def sec10 : List Nat := [
  0xba, 0x4d, 0x6e, 0x67, 0xb2, 0xce, 0x67, 0xa1, 0xe4, 0x43, 0x26, 0x49,
  0x40, 0x44, 0xf3, 0x7a, 0x44, 0x2f, 0x3b, 0x81, 0x72, 0x5b, 0xc1, 0xf9,
  0x34, 0x14, 0x62, 0x71, 0x8b, 0x55, 0xee, 0x20, 0xf7, 0x3f, 0xa0, 0x76,
  0xf8, 0x4b, 0x6d, 0xb6, 0x75, 0xa5, 0xfd, 0xa5, 0xad, 0x67, 0xe3, 0x51,
  0xa4, 0x1e, 0x8e, 0x7f, 0x29, 0xad, 0xd1, 0x68, 0x09, 0xca, 0x01, 0x03,
  0x87, 0xe9, 0xc6, 0xcc]

/-- Expected signed output of vector 10 (unit-test.ino s10): signature then message. -/
def sig10 : List Nat := [
  0x57, 0xb9, 0xd2, 0xa7, 0x11, 0x20, 0x7f, 0x83, 0x74, 0x21, 0xba, 0xe7,
  0xdd, 0x48, 0xea, 0xa1, 0x8e, 0xab, 0x1a, 0x9a, 0x70, 0xa0, 0xf1, 0x30,
  0x58, 0x06, 0xfe, 0xe1, 0x7b, 0x45, 0x8f, 0x3a, 0x09, 0x64, 0xb3, 0x02,
  0xd1, 0x83, 0x4d, 0x3e, 0x0a, 0xc9, 0xe8, 0x49, 0x6f, 0x00, 0x0b, 0x77,
  0xf0, 0x08, 0x3b, 0x41, 0xf8, 0xa9, 0x57, 0xe6, 0x32, 0xfb, 0xc7, 0x84,
  0x0e, 0xee, 0x6a, 0x06, 0x4b, 0xaf, 0xda, 0xc9, 0x09, 0x9d, 0x40, 0x57,
  0xed, 0x6d, 0xd0, 0x8b, 0xca, 0xee, 0x87, 0x56, 0xe9, 0xa4, 0x0f, 0x2c,
  0xb9, 0x59, 0x80, 0x20, 0xeb, 0x95, 0x01, 0x95, 0x28, 0x40, 0x9b, 0xbe,
  0xa3, 0x8b, 0x38, 0x4a, 0x59, 0xf1, 0x19, 0xf5, 0x72, 0x97, 0xbf, 0xb2,
  0xfa, 0x14, 0x2f, 0xc7, 0xbb, 0x1d, 0x90, 0xdb, 0xdd, 0xde, 0x77, 0x2b,
  0xcd, 0xe4, 0x8c, 0x56, 0x70, 0xd5, 0xfa, 0x13]


/-- Modelled from the spec: the accumulator of the Constant-Time Compare
(implementation not under `src/`): the bitwise OR of the bytewise XOR
differences over the compared length — every byte is inspected, with no
short-circuit on a mismatch. -/
def verifyAcc (x y : List Nat) : Nat :=
  (List.zip x y).foldl (fun acc pr => acc ||| (pr.1 ^^^ pr.2)) 0

/-- Modelled from the spec: `crypto_verify_64`, the 64-byte constant-time
comparison core.  The accumulated difference `d` is mapped branchlessly to
`0` (equal) or `-1` (different) by `(1 & ((d - 1) >> 8)) - 1` in unsigned
32-bit arithmetic. -/
def crypto_verify_64 (x y : List Nat) : Int :=
  Int.ofNat (1 &&& (((verifyAcc x y + (2 ^ 32 - 1)) % 2 ^ 32) >>> 8)) - 1

/-- Modelled from the spec: the boolean wrapper `mcci_tweetnacl_verify_64`,
true exactly when the constant-time core reports no difference. -/
def mcci_tweetnacl_verify_64 (x y : List Nat) : Bool :=
  crypto_verify_64 x y == 0

/-- The entropy error taxonomy `mcci_tweetnacl_randombytes_error_t`
(enumerators listed in the doxygen group index under `src/`). -/
inductive mcci_tweetnacl_randombytes_error_t where
  | success
  | unknown
  | notInitialized
  | invalidParameter
  | cryptoApiFailed
deriving DecidableEq

/-- Modelled from the spec: the process-wide entropy registration
`mcci_tweetnacl_randombytes_handle_t` — the active provider (if any
has been configured) together with the sticky last-error cell.  A provider
maps a requested length to the produced bytes, or `none` on failure. -/
structure EntropyHandle where
  provider : Option (Nat → Option (List Nat))
  lastError : mcci_tweetnacl_randombytes_error_t

/-- Modelled from the spec: `mcci_tweetnacl_configure_randombytes` registers
the provider, replacing the previously active provider and its error state. -/
def mcci_tweetnacl_configure_randombytes
    (_old : EntropyHandle) (f : Nat → Option (List Nat)) : EntropyHandle :=
  ⟨some f, .success⟩

/-- Modelled from the spec: the entropy request `mcci_tweetnacl_hal_randombytes`.
Checks in the spec's order: `NotInitialized` if no provider is configured;
`InvalidParameter` if the length is zero or the buffer invalid (before any
provider call); `CryptoApiFailed` if the provider fails or under-fills;
otherwise `Success` with the fully filled buffer.  The request never touches
the sticky last-error cell. -/
def mcci_tweetnacl_hal_randombytes (st : EntropyHandle) (bufferValid : Bool) (len : Nat) :
    EntropyHandle × mcci_tweetnacl_randombytes_error_t × Option (List Nat) :=
  match st.provider with
  | none => (st, .notInitialized, none)
  | some f =>
      if len = 0 ∨ bufferValid = false then (st, .invalidParameter, none)
      else
        match f len with
        | none => (st, .cryptoApiFailed, none)
        | some bs =>
            if bs.length = len then (st, .success, some bs)
            else (st, .cryptoApiFailed, none)

/-- Modelled from the spec: read the sticky diagnostic error. -/
def mcci_tweetnacl_hal_randombytes_getlasterror
    (st : EntropyHandle) : mcci_tweetnacl_randombytes_error_t :=
  st.lastError

/-- Modelled from the spec: set the sticky diagnostic error. -/
def mcci_tweetnacl_hal_randombytes_setlasterror
    (st : EntropyHandle) (e : mcci_tweetnacl_randombytes_error_t) : EntropyHandle :=
  ⟨st.provider, e⟩

theorem natToBytesLE_length (k : Nat) : ∀ n, (natToBytesLE k n).length = k := by
  induction k with
  | zero => intro n; rfl
  | succ j ih => intro n; simp [natToBytesLE, ih]

theorem ed25519Signature_length (m sk : List Nat) : (ed25519Signature m sk).length = 64 := by
  simp [ed25519Signature, pack, natToBytesLE_length]

theorem lor_eq_zero_iff (a b : Nat) : a ||| b = 0 ↔ a = 0 ∧ b = 0 := by
  constructor
  · intro h
    constructor
    · exact Nat.eq_of_testBit_eq fun i => by
        have hb := congrArg (fun n => n.testBit i) h
        simp only [Nat.testBit_or] at hb
        simpa using (Bool.or_eq_false_iff.mp (by simpa using hb)).1
    · exact Nat.eq_of_testBit_eq fun i => by
        have hb := congrArg (fun n => n.testBit i) h
        simp only [Nat.testBit_or] at hb
        simpa using (Bool.or_eq_false_iff.mp (by simpa using hb)).2
  · rintro ⟨rfl, rfl⟩
    rfl

theorem foldl_lor_xor_eq_zero (l : List (Nat × Nat)) :
    ∀ acc, (l.foldl (fun acc pr => acc ||| (pr.1 ^^^ pr.2)) acc = 0) ↔
      (acc = 0 ∧ ∀ pr ∈ l, pr.1 = pr.2) := by
  induction l with
  | nil => intro acc; simp
  | cons hd tl ih =>
      intro acc
      simp only [List.foldl_cons, ih, lor_eq_zero_iff, Nat.xor_eq_zero, List.mem_cons]
      constructor
      · rintro ⟨⟨h1, h2⟩, h3⟩
        exact ⟨h1, fun pr hpr => hpr.elim (fun he => he ▸ h2) (h3 pr)⟩
      · rintro ⟨h1, h2⟩
        exact ⟨⟨h1, h2 hd (Or.inl rfl)⟩, fun pr hpr => h2 pr (Or.inr hpr)⟩

theorem verifyAcc_eq_zero (x y : List Nat) :
    verifyAcc x y = 0 ↔ ∀ pr ∈ List.zip x y, pr.1 = pr.2 := by
  rw [verifyAcc, foldl_lor_xor_eq_zero]
  simp

theorem foldl_lor_xor_lt (l : List (Nat × Nat))
    (hl : ∀ pr ∈ l, pr.1 < 256 ∧ pr.2 < 256) :
    ∀ acc, acc < 256 → l.foldl (fun acc pr => acc ||| (pr.1 ^^^ pr.2)) acc < 256 := by
  induction l with
  | nil => intro acc h; simpa using h
  | cons hd tl ih =>
      intro acc hacc
      have hhd := hl hd (List.mem_cons_self hd tl)
      have hx : hd.1 ^^^ hd.2 < 256 := by
        have := Nat.xor_lt_two_pow (n := 8) hhd.1 hhd.2
        simpa using this
      have hor : acc ||| (hd.1 ^^^ hd.2) < 256 := by
        have := Nat.or_lt_two_pow (n := 8) (by simpa using hacc) hx
        simpa using this
      exact ih (fun pr hpr => hl pr (List.mem_cons_of_mem hd hpr)) _ hor

theorem verifyAcc_lt (x y : List Nat)
    (hx : ∀ b ∈ x, b < 256) (hy : ∀ b ∈ y, b < 256) : verifyAcc x y < 256 := by
  refine foldl_lor_xor_lt _ ?_ 0 (by decide)
  intro pr hpr
  have := List.of_mem_zip hpr
  exact ⟨hx pr.1 this.1, hy pr.2 this.2⟩

theorem zip_forall_eq_iff (x : List Nat) :
    ∀ y : List Nat, x.length = y.length →
      ((∀ pr ∈ List.zip x y, pr.1 = pr.2) ↔ x = y) := by
  induction x with
  | nil =>
      intro y hy
      cases y with
      | nil => simp
      | cons b ys => simp at hy
  | cons a xs ih =>
      intro y hy
      cases y with
      | nil => simp at hy
      | cons b ys =>
          simp only [List.length_cons, Nat.succ.injEq] at hy
          simp only [List.zip_cons_cons, List.mem_cons, List.cons.injEq]
          constructor
          · intro h
            refine ⟨h (a, b) (Or.inl rfl), ?_⟩
            exact (ih ys hy).mp fun pr hpr => h pr (Or.inr hpr)
          · rintro ⟨rfl, rfl⟩
            intro pr hpr
            rcases hpr with h | h
            · rw [h]
            · exact ((ih xs hy).mpr rfl) pr h

theorem verify_tail_eq_zero_iff (d : Nat) (hd : d < 256) :
    Int.ofNat (1 &&& (((d + (2 ^ 32 - 1)) % 2 ^ 32) >>> 8)) - 1 = 0 ↔ d = 0 := by
  rcases Nat.eq_zero_or_pos d with rfl | hpos
  · refine ⟨fun _ => rfl, fun _ => by decide⟩
  · have h1 : d + (2 ^ 32 - 1) = (d - 1) + 1 * 2 ^ 32 := by omega
    rw [h1, Nat.add_mul_mod_self_right, Nat.mod_eq_of_lt (by omega)]
    have h2 : (d - 1) >>> 8 = 0 := by
      rw [Nat.shiftRight_eq_div_pow]
      exact Nat.div_eq_of_lt (by omega)
    rw [h2]
    constructor
    · intro h
      simp [Nat.land] at h
    · intro h
      omega

/-- C7: the constant-time comparison over 64-byte buffers agrees with plain
byte-wise equality: it is true on identical buffers and false whenever the
buffers differ in at least one compared byte. -/
theorem verify_64_iff_eq (x y : List Nat) (hx : x.length = 64) (hy : y.length = 64)
    (hbx : ∀ b ∈ x, b < 256) (hby : ∀ b ∈ y, b < 256) :
    mcci_tweetnacl_verify_64 x y = true ↔ x = y := by
  rw [mcci_tweetnacl_verify_64, beq_iff_eq, crypto_verify_64,
    verify_tail_eq_zero_iff (verifyAcc x y) (verifyAcc_lt x y hbx hby),
    verifyAcc_eq_zero]
  exact zip_forall_eq_iff x y (hx.trans hy.symm)

/-- Witness for C7 at concrete 64-byte buffers. -/
theorem verify_64_iff_eq_witness :
    (List.replicate 64 (7 : Nat)).length = 64 ∧
    (duckDigest.length = 64) ∧
    (∀ b ∈ List.replicate 64 (7 : Nat), b < 256) ∧
    (∀ b ∈ duckDigest, b < 256) ∧
    (mcci_tweetnacl_verify_64 (List.replicate 64 7) (List.replicate 64 7) = true ↔
      List.replicate 64 (7 : Nat) = List.replicate 64 7) ∧
    (mcci_tweetnacl_verify_64 (List.replicate 64 7) duckDigest = true ↔
      List.replicate 64 (7 : Nat) = duckDigest) :=
  ⟨by decide, by decide, by decide, by decide,
    verify_64_iff_eq _ _ (by decide) (by decide) (by decide) (by decide),
    verify_64_iff_eq _ _ (by decide) (by decide) (by decide) (by decide)⟩

/-- C8: with no provider configured, every entropy request reports
`NotInitialized`, leaves the state unchanged, and fills no buffer. -/
theorem hal_randombytes_not_initialized
    (e : mcci_tweetnacl_randombytes_error_t) (v : Bool) (len : Nat) :
    mcci_tweetnacl_hal_randombytes ⟨none, e⟩ v len =
      (⟨none, e⟩, .notInitialized, none) := rfl

/-- Counterexample to C9 as stated: in the unconfigured state a request with
length zero reports `NotInitialized`, not `InvalidParameter` — the
configured-state check precedes the parameter check. -/
theorem hal_randombytes_zero_len_uninitialized :
    (mcci_tweetnacl_hal_randombytes ⟨none, .success⟩ true 0).2.1 =
      mcci_tweetnacl_randombytes_error_t.notInitialized ∧
    mcci_tweetnacl_randombytes_error_t.notInitialized ≠
      mcci_tweetnacl_randombytes_error_t.invalidParameter :=
  ⟨rfl, by decide⟩

/-- C9 (amended): once a provider is configured, a request with zero length or
an invalid buffer reports `InvalidParameter` and is answered identically for
every provider — the provider is never consulted. -/
theorem hal_randombytes_invalid_parameter
    (f : Nat → Option (List Nat)) (e : mcci_tweetnacl_randombytes_error_t)
    (v : Bool) (len : Nat) (h : len = 0 ∨ v = false) :
    mcci_tweetnacl_hal_randombytes ⟨some f, e⟩ v len =
      (⟨some f, e⟩, .invalidParameter, none) ∧
    ∀ g, mcci_tweetnacl_hal_randombytes ⟨some g, e⟩ v len =
      (⟨some g, e⟩, .invalidParameter, none) := by
  constructor
  · simp [mcci_tweetnacl_hal_randombytes, h]
  · intro g
    simp [mcci_tweetnacl_hal_randombytes, h]

/-- Witness for C9 (amended) at a concrete provider and zero length. -/
theorem hal_randombytes_invalid_parameter_witness :
    ((0 : Nat) = 0 ∨ true = false) ∧
    (mcci_tweetnacl_hal_randombytes ⟨some (fun _ => none), .success⟩ true 0 =
      (⟨some (fun _ => none), .success⟩, .invalidParameter, none) ∧
    ∀ g, mcci_tweetnacl_hal_randombytes ⟨some g, .success⟩ true 0 =
      (⟨some g, .success⟩, .invalidParameter, none)) :=
  ⟨Or.inl rfl,
    hal_randombytes_invalid_parameter (fun _ => none) .success true 0 (Or.inl rfl)⟩

/-- C10: the sticky last error reads back exactly as set, and an intervening
entropy request — in any state, with any outcome — does not change it. -/
theorem hal_randombytes_lasterror_sticky
    (st : EntropyHandle) (e : mcci_tweetnacl_randombytes_error_t)
    (v : Bool) (len : Nat) :
    mcci_tweetnacl_hal_randombytes_getlasterror
      (mcci_tweetnacl_hal_randombytes_setlasterror st e) = e ∧
    mcci_tweetnacl_hal_randombytes_getlasterror
      (mcci_tweetnacl_hal_randombytes
        (mcci_tweetnacl_hal_randombytes_setlasterror st e) v len).1 = e := by
  refine ⟨rfl, ?_⟩
  unfold mcci_tweetnacl_hal_randombytes mcci_tweetnacl_hal_randombytes_setlasterror
    mcci_tweetnacl_hal_randombytes_getlasterror
  cases st.provider with
  | none => rfl
  | some f =>
      by_cases h : len = 0 ∨ v = false
      · simp [h]
      · simp only [h, if_false]
        cases f len with
        | none => rfl
        | some bs =>
            by_cases hl : bs.length = len
            · simp [hl]
            · simp [hl]

/-- C5: the SHA-512 digest of the 11 bytes of the duck test input is exactly
the published 64-byte digest. -/
theorem hash_sha512_duck_kat : mcci_tweetnacl_hash_sha512 duckInput = duckDigest := by
  decide

set_option maxRecDepth 100000 in
/-- C4: sign reproduces all ten published known-answer vectors exactly —
for each, the output buffer equals the published signed message (for the
empty-message vector 1 this is literally the published 64-byte signature
`e5 56 43 00 … 7a 10 0b` from secret key `9d 61 b1 9d … f7 07 51 1a`)
and the reported length equals its length. -/
theorem sign_kat_all_ten :
    mcci_tweetnacl_sign msg1 sec1 = (sig1, sig1.length) ∧
    mcci_tweetnacl_sign msg2 sec2 = (sig2, sig2.length) ∧
    mcci_tweetnacl_sign msg3 sec3 = (sig3, sig3.length) ∧
    mcci_tweetnacl_sign msg4 sec4 = (sig4, sig4.length) ∧
    mcci_tweetnacl_sign msg5 sec5 = (sig5, sig5.length) ∧
    mcci_tweetnacl_sign msg6 sec6 = (sig6, sig6.length) ∧
    mcci_tweetnacl_sign msg7 sec7 = (sig7, sig7.length) ∧
    mcci_tweetnacl_sign msg8 sec8 = (sig8, sig8.length) ∧
    mcci_tweetnacl_sign msg9 sec9 = (sig9, sig9.length) ∧
    mcci_tweetnacl_sign msg10 sec10 = (sig10, sig10.length) := by
  refine ⟨?_, ?_, ?_, ?_, ?_, ?_, ?_, ?_, ?_, ?_⟩ <;> decide

/-- Counterexample to C1 as stated: for the published one-byte message of
vector 2 and its well-formed 64-byte secret key, sign reports output length
65, not 64, and writes a 65-byte buffer. -/
theorem sign_output_length_not_64 :
    sec2.length = 64 ∧ msg2.length = 1 ∧
    (mcci_tweetnacl_sign msg2 sec2).2 = 65 ∧
    (mcci_tweetnacl_sign msg2 sec2).1.length = 65 ∧
    (65 : Nat) ≠ 64 :=
  ⟨by decide, rfl, rfl,
    by simp [mcci_tweetnacl_sign, ed25519Signature_length, msg2], by decide⟩

/-- C1 (amended): for every message and well-formed 64-byte secret key, sign
writes a buffer of `64 + |message|` bytes whose first 64 bytes are the
signature, and reports output length `64 + |message|`; the reported length is
64 exactly when the message is empty. -/
theorem sign_reported_length (m sk : List Nat) (_hsk : sk.length = 64) :
    (mcci_tweetnacl_sign m sk).1.length = 64 + m.length ∧
    (mcci_tweetnacl_sign m sk).2 = 64 + m.length ∧
    (mcci_tweetnacl_sign m sk).1.take 64 = ed25519Signature m sk ∧
    ((mcci_tweetnacl_sign m sk).2 = 64 ↔ m = []) := by
  refine ⟨?_, rfl, ?_, ?_⟩
  · simp [mcci_tweetnacl_sign, ed25519Signature_length]
  · calc (mcci_tweetnacl_sign m sk).1.take 64
        = (ed25519Signature m sk ++ m).take (ed25519Signature m sk).length := by
          rw [ed25519Signature_length]; rfl
      _ = ed25519Signature m sk := List.take_left _ _
  · show 64 + m.length = 64 ↔ m = []
    rw [← List.length_eq_zero]
    omega

/-- Witness for C1 (amended) at the empty-message vector 1. -/
theorem sign_reported_length_witness :
    sec1.length = 64 ∧
    ((mcci_tweetnacl_sign msg1 sec1).1.length = 64 + msg1.length ∧
      (mcci_tweetnacl_sign msg1 sec1).2 = 64 + msg1.length ∧
      (mcci_tweetnacl_sign msg1 sec1).1.take 64 = ed25519Signature msg1 sec1 ∧
      ((mcci_tweetnacl_sign msg1 sec1).2 = 64 ↔ msg1 = [])) :=
  ⟨by decide, sign_reported_length msg1 sec1 (by decide)⟩

/-- C2: for every message and well-formed 64-byte secret key, the output
buffer is the 64-byte signature followed by a verbatim copy of the message,
and the reported length is `64 +` the message length. -/
theorem sign_output_format (m sk : List Nat) (_hsk : sk.length = 64) :
    (mcci_tweetnacl_sign m sk).1 = ed25519Signature m sk ++ m ∧
    (ed25519Signature m sk).length = 64 ∧
    (mcci_tweetnacl_sign m sk).1.drop 64 = m ∧
    (mcci_tweetnacl_sign m sk).2 = 64 + m.length := by
  refine ⟨rfl, ed25519Signature_length m sk, ?_, rfl⟩
  calc (mcci_tweetnacl_sign m sk).1.drop 64
      = (ed25519Signature m sk ++ m).drop (ed25519Signature m sk).length := by
        rw [ed25519Signature_length]; rfl
    _ = m := List.drop_left _ _

/-- Witness for C2 at the one-byte vector 2. -/
theorem sign_output_format_witness :
    sec2.length = 64 ∧
    ((mcci_tweetnacl_sign msg2 sec2).1 = ed25519Signature msg2 sec2 ++ msg2 ∧
      (ed25519Signature msg2 sec2).length = 64 ∧
      (mcci_tweetnacl_sign msg2 sec2).1.drop 64 = msg2 ∧
      (mcci_tweetnacl_sign msg2 sec2).2 = 64 + msg2.length) :=
  ⟨by decide, sign_output_format msg2 sec2 (by decide)⟩

theorem toWordsBE_replicate_zero (n : Nat) :
    ∀ rest, toWordsBE (List.replicate (8 * n) 0 ++ rest) =
      List.replicate n 0 ++ toWordsBE rest := by
  induction n with
  | zero => intro rest; simp
  | succ k ih =>
      intro rest
      have h8 : 8 * (k + 1) = 8 + 8 * k := by ring
      have hrep : List.replicate 8 (0 : Nat) = [0, 0, 0, 0, 0, 0, 0, 0] := rfl
      have hstep : ∀ t : List Nat,
          toWordsBE (0 :: 0 :: 0 :: 0 :: 0 :: 0 :: 0 :: 0 :: t) = 0 :: toWordsBE t :=
        fun t => rfl
      rw [h8, List.replicate_add, hrep, List.append_assoc]
      simp only [List.cons_append, List.nil_append]
      rw [hstep, ih rest]
      simp [List.replicate_succ]

theorem toBlocks16_replicate_zero (n : Nat) :
    ∀ rest, toBlocks16 (List.replicate (16 * n) 0 ++ rest) =
      List.replicate n (List.replicate 16 0) ++ toBlocks16 rest := by
  induction n with
  | zero => intro rest; simp
  | succ k ih =>
      intro rest
      have h16 : 16 * (k + 1) = 16 + 16 * k := by ring
      have hrep : List.replicate 16 (0 : Nat) =
        [0, 0, 0, 0, 0, 0, 0, 0, 0, 0, 0, 0, 0, 0, 0, 0] := rfl
      have hstep : ∀ t : List Nat,
          toBlocks16 (0 :: 0 :: 0 :: 0 :: 0 :: 0 :: 0 :: 0 ::
              0 :: 0 :: 0 :: 0 :: 0 :: 0 :: 0 :: 0 :: t) =
            List.replicate 16 0 :: toBlocks16 t :=
        fun t => rfl
      rw [h16, List.replicate_add, hrep, List.append_assoc]
      simp only [List.cons_append, List.nil_append]
      rw [hstep, ih rest]
      simp [List.replicate_succ]

set_option maxRecDepth 100000 in
/-- C6: the SHA-512 digest of 4096 zero bytes is exactly the published
64-byte digest.  The 4096-byte input is decomposed into 32 all-zero blocks
and one padding block before the compression chain is evaluated. -/
theorem hash_sha512_zeros4096_kat :
    mcci_tweetnacl_hash_sha512 (List.replicate 4096 0) = zeros4096Digest := by
  have hpad : sha512pad (List.replicate 4096 0) =
      List.replicate 4096 0 ++
        ([128] ++ (List.replicate 111 0 ++ natToBytesBE 16 32768)) := by
    rw [sha512pad, List.length_replicate]
    norm_num
  unfold mcci_tweetnacl_hash_sha512
  rw [hpad]
  simp only [List.singleton_append]
  have hw := toWordsBE_replicate_zero 512
    ([128] ++ (List.replicate 111 0 ++ natToBytesBE 16 32768))
  norm_num at hw
  rw [hw]
  have hlit : toWordsBE (128 :: (List.replicate 111 0 ++ natToBytesBE 16 32768)) =
      [0x8000000000000000, 0, 0, 0, 0, 0, 0, 0, 0, 0, 0, 0, 0, 0, 0, 0x8000] := by
    decide
  rw [hlit]
  have hb := toBlocks16_replicate_zero 32
    [0x8000000000000000, 0, 0, 0, 0, 0, 0, 0, 0, 0, 0, 0, 0, 0, 0, 0x8000]
  norm_num at hb
  rw [hb]
  decide
